import Mathlib

/-!
Verification of `sudns01/clients/resolver.py` (class `ResolverClient`).

The external resolution engine (dnspython's stub resolver) is out of scope
per the spec: each lookup method is embedded as a function of an *oracle*
that maps a query to the engine's outcome (an answer, or one of the
exceptions the source catches).  The embedding instruments each method with
the ordered list of query names it sends to the oracle, so that claims about
"how many queries are issued" are statable.
-/

/-- A DNS name, as in `dns.name.Name`: an ordered list of labels.  An
absolute name ends in the empty (root) label. -/
structure Name where
  labels : List String
deriving DecidableEq, Repr

/-- `dns.name.Name.is_absolute`: true when the name is non-empty and its
last label is the root label. -/
def Name.is_absolute (n : Name) : Bool :=
  n.labels.getLast? = some ""

/-- `dns.name.Name.parent()`: strip the leftmost label.  Raises `NoParent`
(modelled as `none`) on the root name `('',)` and on the empty name `()`. -/
def Name.parent (n : Name) : Option Name :=
  if n.labels = [""] ∨ n.labels = [] then none
  else some ⟨n.labels.drop 1⟩

/-- The record types the resolver code inspects (`dns.rdatatype`). -/
inductive Rdtype where
  | A
  | AAAA
  | CNAME
  | DNAME
  | SOA
  | TXT
deriving DecidableEq, Repr

/-- Whether a record type is one of the two redirection types checked by
`_check_has_cdname` (`rdtype in (CNAME, DNAME)`). -/
def Rdtype.is_redirect : Rdtype → Bool
  | .CNAME => true
  | .DNAME => true
  | _ => false

/-- Whether a record type is SOA (`rdtype is dns.rdatatype.SOA`). -/
def Rdtype.is_soa : Rdtype → Bool
  | .SOA => true
  | _ => false

/-- One byte string (the payload of a TXT character-string). -/
abbrev Bytes := List Nat

/-- An RRset of a response section: its owner name and record type.  The
resolver code reads nothing else from Answer/Authority records. -/
structure RRset where
  name : Name
  rdtype : Rdtype
deriving DecidableEq, Repr

/-- A `dns.resolver.Answer`: the question name
(`answer.response.question[0].name`), the Answer section
(`answer.response.answer`), the Authority section
(`answer.response.authority`), and the matched rrset (`answer.rrset`,
`None` when the query got no answer records).  For TXT lookups each rdata
of the matched rrset is represented by its tuple of character-strings
(`rdata.strings`), which is all `get_txt` reads from it. -/
structure Answer where
  question : Name
  answer : List RRset
  authority : List RRset
  rrset : Option (List (List Bytes)) := none
deriving DecidableEq, Repr

/-- Outcome of `resolver.resolve(..., raise_on_no_answer=False)`: an answer,
or one of the exceptions the source catches.  `NoAnswer` cannot occur
because `raise_on_no_answer` is false. -/
inductive ResolveOutcome where
  | ok (a : Answer)
  | nxdomain
  | noNameservers
  | lifetimeTimeout
  | yxdomain
deriving DecidableEq, Repr

/-- Result of `ResolverClient.get_zone_name`: the zone name, or the
exception the call raises.  `recursionError` models Python's stack limit on
the (unbounded) self-recursion; `noParentError` models `dns.name.NoParent`
escaping from `parent()`. -/
inductive ZoneOutcome where
  | ok (zone : Name)
  | valueError
  | resolverError
  | permanentError
  | cdnameError
  | noParentError
  | recursionError
deriving DecidableEq, Repr

/-- The number of CNAME/DNAME rrsets in the Answer section, as counted by
the loop in `_check_has_cdname` (`redirects_found`). -/
def redirects_found (answer : Answer) : Nat :=
  answer.answer.countP (fun r => r.rdtype.is_redirect)

/-- `ResolverClient._check_has_cdname`: count CNAME/DNAME rrsets in the
Answer section; with none, return false; with at least one, raise
`ResolverErrorCDName` naming the question (modelled as `.error` carrying the
question name) when `raise_on_cdname` is true, else return true. -/
def check_has_cdname (answer : Answer) (raise_on_cdname : Bool) :
    Except Name Bool :=
  if redirects_found answer > 0 then
    if raise_on_cdname then .error answer.question
    else .ok true
  else .ok false

/-- `ResolverClient.get_zone_name`, instrumented with the ordered list of
names it queries.  `oracle cached q` is the engine's outcome for an SOA
query of `q` on the cached (`true`) or uncached (`false`) engine; `fuel`
bounds the self-recursion (Python's recursion limit).  Mirrors the source:
validate absoluteness (`raise ValueError`), query, map engine failures,
run the CNAME/DNAME check — whose raise is caught and, for
`raise_on_cdname` false, answered by recursing on the parent of the
question name — then search the Answer section for an SOA rrset and fall
back to the first Authority rrset. -/
def get_zone_name (oracle : Bool → Name → ResolveOutcome)
    (cached raise_on_cdname : Bool) (fuel : Nat) (query : Name) :
    ZoneOutcome × List Name :=
  if ¬ query.is_absolute then (.valueError, [])
  else
    match oracle cached query with
    | .nxdomain => (.permanentError, [query])
    | .noNameservers => (.resolverError, [query])
    | .lifetimeTimeout => (.resolverError, [query])
    | .yxdomain => (.permanentError, [query])
    | .ok answer =>
      match check_has_cdname answer raise_on_cdname with
      | .error _ =>
        -- `except ResolverErrorCDName:` — the handler re-raises when
        -- `raise_on_cdname` is true, else retries on the parent; the check
        -- only raises when the flag is true, so the retry is unreachable.
        if raise_on_cdname then (.cdnameError, [query])
        else
          match answer.question.parent with
          | none => (.noParentError, [query])
          | some parent_query =>
            match fuel with
            | 0 => (.recursionError, [query])
            | fuel' + 1 =>
              let rec_result :=
                get_zone_name oracle cached raise_on_cdname fuel' parent_query
              (rec_result.1, query :: rec_result.2)
      | .ok _ =>
        -- The check's boolean return value is discarded by the source.
        match answer.answer.find? (fun r => r.rdtype.is_soa) with
        | some rr => (.ok rr.name, [query])
        | none =>
          match answer.authority with
          | [] => (.permanentError, [query])
          | rr :: _ => (.ok rr.name, [query])

/-- The decoded shape of one TXT record (spec `TextEntry`): the source
returns the record's single bytes object when it holds one character-string
and the whole tuple when it holds more than one. -/
inductive TextEntry where
  | single (s : Bytes)
  | multi (ss : List Bytes)
deriving DecidableEq, Repr

/-- The exceptions `get_txt` and `get_ip` can raise: `ResolverError`
(retryable), `ResolverErrorPermanent`, `ResolverErrorCDName` (carrying the
question name), and an `IndexError` escaping from `entries[0]` on a TXT
record with no character-strings. -/
inductive LookupFailure where
  | retryable
  | permanent
  | cdname (question : Name)
  | indexError
deriving DecidableEq, Repr

/-- The per-record step of `get_txt`'s final comprehension:
`entries if len(entries) > 1 else entries[0]`.  Indexing an empty tuple
raises `IndexError`, modelled as `none`. -/
def decode_txt_record (entries : List Bytes) : Option TextEntry :=
  if entries.length > 1 then some (.multi entries)
  else
    match entries with
    | [] => none
    | e :: _ => some (.single e)

/-- `get_txt`'s final list comprehension over `text_tuples`: decode each
record in order; an `IndexError` on any record aborts the whole list
(modelled as `none`). -/
def decode_txt_records : List (List Bytes) → Option (List TextEntry)
  | [] => some []
  | r :: rest =>
    match decode_txt_record r with
    | none => none
    | some e =>
      match decode_txt_records rest with
      | none => none
      | some es => some (e :: es)

/-- `ResolverClient.get_txt`: query TXT records (`raise_on_no_answer`
false), map engine failures — NXDOMAIN to an empty list, NoNameservers and
LifetimeTimeout to `ResolverError`, YXDOMAIN to `ResolverErrorPermanent` —
run the CNAME/DNAME check (its raise propagates), return an empty list when
the reply has no matched rrset, and otherwise decode each rdata's
character-strings in server order.  `oracle cached search q` is the
engine's outcome for a TXT query of `q`. -/
def get_txt (oracle : Bool → Bool → Name → ResolveOutcome) (query : Name)
    (cached search raise_on_cdname : Bool) :
    Except LookupFailure (List TextEntry) :=
  match oracle cached search query with
  | .nxdomain => .ok []
  | .noNameservers => .error .retryable
  | .lifetimeTimeout => .error .retryable
  | .yxdomain => .error .permanent
  | .ok reply =>
    match check_has_cdname reply raise_on_cdname with
    | .error q => .error (.cdname q)
    | .ok _ =>
      match reply.rrset with
      | none => .ok []
      | some text_tuples =>
        match decode_txt_records text_tuples with
        | none => .error .indexError
        | some entries => .ok entries

/-- Address family selector passed to the engine by `get_ip`
(`socket.AF_UNSPEC` or `socket.AF_INET`). -/
inductive Family where
  | af_unspec
  | af_inet
deriving DecidableEq, Repr

/-- Modelled from the spec: the engine's `resolve_name` result (dnspython
`HostAnswers`, absent from src/) — one address list per family, each in
server order.  Its `addresses()` iterator yields every IPv6 address, in
server order, before every IPv4 address. -/
structure HostAnswers where
  aaaa : List String
  a : List String
deriving DecidableEq, Repr

/-- Modelled from the spec: `HostAnswers.addresses()` — IPv6 addresses
first, then IPv4, each family in server order. -/
def HostAnswers.addresses (h : HostAnswers) : List String :=
  h.aaaa ++ h.a

/-- Outcome of `resolver.resolve_name(...)`: host answers or one of the
exceptions the source catches (here `NoAnswer` can occur). -/
inductive HostOutcome where
  | ok (answers : HostAnswers)
  | nxdomain
  | noAnswer
  | noNameservers
  | lifetimeTimeout
  | yxdomain
deriving DecidableEq, Repr

/-- `ResolverClient.get_ip`: pick the address family from `ipv6`, query via
`resolve_name`, turn NXDOMAIN and NoAnswer into an empty list, map
NoNameservers and LifetimeTimeout to `ResolverError` and YXDOMAIN to
`ResolverErrorPermanent`, and return `answers.addresses()` unchanged.
`oracle cached family search q` is the engine's outcome. -/
def get_ip (oracle : Bool → Family → Bool → Name → HostOutcome)
    (query : Name) (cached ipv6 search : Bool) :
    Except LookupFailure (List String) :=
  let family := if ipv6 = true then Family.af_unspec else Family.af_inet
  match oracle cached family search query with
  | .ok answers => .ok answers.addresses
  | .nxdomain => .ok []
  | .noAnswer => .ok []
  | .noNameservers => .error .retryable
  | .lifetimeTimeout => .error .retryable
  | .yxdomain => .error .permanent

/-- The configuration the source reads or writes on a `dns.resolver.Resolver`
engine: per-query lifetime, the servfail-retry flag, and the cache's
cleaning interval (`none` when no cache is installed). -/
structure Resolver where
  lifetime : Nat
  retry_servfail : Bool
  cache_cleaning_interval : Option Nat
deriving DecidableEq, Repr

/-- Modelled from the spec: the engine configuration a freshly constructed
`dns.resolver.Resolver(configure=True)` carries before this core touches it
(dnspython defaults: lifetime 5, no servfail retry, no cache).  The
dnspython constructor is absent from src/. -/
def Resolver.engine_default : Resolver :=
  ⟨5, false, none⟩

def RESOLVER_TIMEOUT : Nat := 10

def CACHE_CLEAN_INTERVAL : Nat := 300

/-- The two engines held by a `ResolverClient`. -/
structure ResolverClient where
  resolver : Resolver
  resolver_nocache : Resolver
deriving DecidableEq, Repr

/-- `ResolverClient.__init__`, statement by statement.  `d` is the engine
configuration produced by each `dns.resolver.Resolver(configure=True)`
call.  The source's last two statements assign `retry_servfail` and
`lifetime` on `self._resolver` again — not on `self._resolver_nocache`,
which therefore keeps its construction-time configuration. -/
def ResolverClient.init (d : Resolver) : ResolverClient :=
  let r := d
  let r := { r with cache_cleaning_interval := some CACHE_CLEAN_INTERVAL }
  let r := { r with retry_servfail := true }
  let r := { r with lifetime := RESOLVER_TIMEOUT }
  let rn := d
  let r := { r with retry_servfail := true }
  let r := { r with lifetime := RESOLVER_TIMEOUT }
  ⟨r, rn⟩

/-! Concrete fixtures used by witnesses and counterexample evaluation. -/

def www_stanford : Name := ⟨["www", "stanford", "edu", ""]⟩

def stanford_edu : Name := ⟨["stanford", "edu", ""]⟩

def fastly_net : Name := ⟨["fastly", "net", ""]⟩

/-- An SOA answer for `www.stanford.edu.` that went through a CNAME: the
Answer section holds the CNAME rrset, the Authority section the SOA of the
redirect target's zone. -/
def cdname_answer : Answer :=
  ⟨www_stanford, [⟨www_stanford, .CNAME⟩], [⟨fastly_net, .SOA⟩], none⟩

/-- A direct SOA answer for `stanford.edu.`, SOA in the Answer section. -/
def parent_soa_answer : Answer :=
  ⟨stanford_edu, [⟨stanford_edu, .SOA⟩], [], none⟩

/-- An engine that answers the `www` query with the redirected answer and
any other query (in particular the parent) with the direct SOA answer. -/
def cdname_oracle : Bool → Name → ResolveOutcome := fun _ q =>
  if q = www_stanford then .ok cdname_answer else .ok parent_soa_answer

/-- An SOA answer with the SOA only in the Authority section. -/
def authority_answer : Answer :=
  ⟨www_stanford, [], [⟨stanford_edu, .SOA⟩], none⟩

/-- An SOA answer with neither Answer nor Authority records. -/
def empty_answer : Answer :=
  ⟨www_stanford, [], [], none⟩

/-- A TXT answer: one record with the single string `a`, one record with
the three strings `a`, `b`, `c`. -/
def txt_answer : Answer :=
  ⟨stanford_edu, [⟨stanford_edu, .TXT⟩], [], some [[[97]], [[97], [98], [99]]]⟩

/-- A TXT answer containing a record with zero character-strings. -/
def txt_empty_record_answer : Answer :=
  ⟨stanford_edu, [], [], some [[]]⟩

/-- A no-answer TXT reply (`rrset is None`). -/
def txt_noanswer : Answer :=
  ⟨stanford_edu, [], [], none⟩

/-- The spec's address example: AAAA `::1`, `::2` and A `1.1.1.1`. -/
def host_answers_example : HostAnswers :=
  ⟨["::1", "::2"], ["1.1.1.1"]⟩

/-- C1: the parent-retry branch of `get_zone_name` is dead code.  With
`raise_on_cdname` false and a CNAME in the answer, the call returns the
redirected answer's Authority zone (`fastly.net.`) after exactly one query;
the claimed behaviour — a second query for the parent `stanford.edu.`,
whose zone result (`stanford.edu.`) would be returned — does not happen. -/
theorem C1_cdname_no_parent_retry :
    get_zone_name cdname_oracle true false 1000 www_stanford
      = (.ok fastly_net, [www_stanford]) ∧
    get_zone_name cdname_oracle true false 1000 stanford_edu
      = (.ok stanford_edu, [stanford_edu]) ∧
    fastly_net ≠ stanford_edu := by
  refine ⟨by decide, by decide, by decide⟩

/-- C2: the redirect check returns false on zero CNAME/DNAME records,
raises a CdnameError naming the question when records are present and the
flag is set, returns true when records are present and the flag is clear;
and `get_zone_name` with `raise_on_cdname` true fails with the CdnameError
after exactly one query. -/
theorem C2_redirect_check :
    (∀ (answer : Answer) (b : Bool), redirects_found answer = 0 →
        check_has_cdname answer b = .ok false) ∧
    (∀ answer : Answer, 0 < redirects_found answer →
        check_has_cdname answer true = .error answer.question) ∧
    (∀ answer : Answer, 0 < redirects_found answer →
        check_has_cdname answer false = .ok true) ∧
    (∀ (oracle : Bool → Name → ResolveOutcome) (cached : Bool) (fuel : Nat)
        (query : Name) (answer : Answer),
        query.is_absolute = true →
        oracle cached query = .ok answer →
        0 < redirects_found answer →
        get_zone_name oracle cached true fuel query
          = (.cdnameError, [query])) := by
  refine ⟨?_, ?_, ?_, ?_⟩
  · intro answer b h
    simp [check_has_cdname, h]
  · intro answer h
    simp [check_has_cdname, h]
  · intro answer h
    simp [check_has_cdname, h]
  · intro oracle cached fuel query answer habs horacle hred
    have hchk : check_has_cdname answer true = .error answer.question := by
      simp [check_has_cdname, hred]
    unfold get_zone_name
    simp [habs, horacle, hchk]

theorem C2_witness :
    redirects_found parent_soa_answer = 0 ∧
    check_has_cdname parent_soa_answer true = .ok false ∧
    0 < redirects_found cdname_answer ∧
    check_has_cdname cdname_answer true = .error www_stanford ∧
    check_has_cdname cdname_answer false = .ok true ∧
    www_stanford.is_absolute = true ∧
    get_zone_name cdname_oracle true true 7 www_stanford
      = (.cdnameError, [www_stanford]) :=
  ⟨by decide,
   C2_redirect_check.1 parent_soa_answer true (by decide),
   by decide,
   C2_redirect_check.2.1 cdname_answer (by decide),
   C2_redirect_check.2.2.1 cdname_answer (by decide),
   by decide,
   C2_redirect_check.2.2.2 cdname_oracle true 7 www_stanford cdname_answer
     (by decide) rfl (by decide)⟩

/-- C3: on a redirect-free answer, `get_zone_name` returns the owner name
of the first SOA rrset of the Answer section; with none there, the owner
name of the first Authority rrset; with the Authority section empty too, it
fails with `ResolverErrorPermanent`. -/
theorem C3_soa_extraction :
    ∀ (oracle : Bool → Name → ResolveOutcome) (cached roc : Bool)
      (fuel : Nat) (query : Name) (answer : Answer),
      query.is_absolute = true →
      oracle cached query = .ok answer →
      redirects_found answer = 0 →
      ((∀ rr, answer.answer.find? (fun r => r.rdtype.is_soa) = some rr →
          get_zone_name oracle cached roc fuel query = (.ok rr.name, [query])) ∧
       (answer.answer.find? (fun r => r.rdtype.is_soa) = none →
          ∀ rr rest, answer.authority = rr :: rest →
          get_zone_name oracle cached roc fuel query = (.ok rr.name, [query])) ∧
       (answer.answer.find? (fun r => r.rdtype.is_soa) = none →
          answer.authority = [] →
          get_zone_name oracle cached roc fuel query
            = (.permanentError, [query]))) := by
  intro oracle cached roc fuel query answer habs horacle hred
  have hchk : check_has_cdname answer roc = .ok false := by
    simp [check_has_cdname, hred]
  refine ⟨?_, ?_, ?_⟩
  · intro rr hfind
    unfold get_zone_name
    simp [habs, horacle, hchk, hfind]
  · intro hfind rr rest hauth
    unfold get_zone_name
    simp [habs, horacle, hchk, hfind, hauth]
  · intro hfind hauth
    unfold get_zone_name
    simp [habs, horacle, hchk, hfind, hauth]

theorem C3_witness :
    stanford_edu.is_absolute = true ∧
    redirects_found parent_soa_answer = 0 ∧
    parent_soa_answer.answer.find? (fun r => r.rdtype.is_soa)
      = some ⟨stanford_edu, .SOA⟩ ∧
    get_zone_name (fun _ _ => .ok parent_soa_answer) true true 5 stanford_edu
      = (.ok stanford_edu, [stanford_edu]) ∧
    get_zone_name (fun _ _ => .ok authority_answer) true true 5 www_stanford
      = (.ok stanford_edu, [www_stanford]) ∧
    get_zone_name (fun _ _ => .ok empty_answer) true true 5 www_stanford
      = (.permanentError, [www_stanford]) :=
  ⟨by decide, by decide, by decide,
   (C3_soa_extraction (fun _ _ => .ok parent_soa_answer) true true 5
      stanford_edu parent_soa_answer (by decide) rfl (by decide)).1
     ⟨stanford_edu, .SOA⟩ (by decide),
   (C3_soa_extraction (fun _ _ => .ok authority_answer) true true 5
      www_stanford authority_answer (by decide) rfl (by decide)).2.1
     (by decide) ⟨stanford_edu, .SOA⟩ [] (by decide),
   (C3_soa_extraction (fun _ _ => .ok empty_answer) true true 5
      www_stanford empty_answer (by decide) rfl (by decide)).2.2
     (by decide) (by decide)⟩

/-- C4: `get_zone_name` on a non-absolute name raises a ValueError
immediately, for every engine, fuel, and value of `cached` and
`raise_on_cdname`, issuing no query. -/
theorem C4_nonabsolute_valueerror :
    ∀ (oracle : Bool → Name → ResolveOutcome) (cached roc : Bool)
      (fuel : Nat) (query : Name),
      query.is_absolute = false →
      get_zone_name oracle cached roc fuel query = (.valueError, []) := by
  intro oracle cached roc fuel query habs
  unfold get_zone_name
  simp [habs]

theorem C4_witness :
    (Name.mk ["www", "stanford", "edu"]).is_absolute = false ∧
    get_zone_name (fun _ _ => .nxdomain) true true 5 ⟨["www", "stanford", "edu"]⟩
      = (.valueError, []) ∧
    get_zone_name (fun _ _ => .ok parent_soa_answer) false false 5
      ⟨["www", "stanford", "edu"]⟩ = (.valueError, []) :=
  ⟨by decide,
   C4_nonabsolute_valueerror (fun _ _ => .nxdomain) true true 5
     ⟨["www", "stanford", "edu"]⟩ (by decide),
   C4_nonabsolute_valueerror (fun _ _ => .ok parent_soa_answer) false false 5
     ⟨["www", "stanford", "edu"]⟩ (by decide)⟩

/-- C5: `get_zone_name` maps engine failures of the SOA query: NXDOMAIN and
YXDOMAIN to `ResolverErrorPermanent`, NoNameservers and LifetimeTimeout to
the retryable `ResolverError`. -/
theorem C5_engine_failure_mapping :
    ∀ (oracle : Bool → Name → ResolveOutcome) (cached roc : Bool)
      (fuel : Nat) (query : Name),
      query.is_absolute = true →
      ((oracle cached query = .nxdomain →
          get_zone_name oracle cached roc fuel query
            = (.permanentError, [query])) ∧
       (oracle cached query = .noNameservers →
          get_zone_name oracle cached roc fuel query
            = (.resolverError, [query])) ∧
       (oracle cached query = .lifetimeTimeout →
          get_zone_name oracle cached roc fuel query
            = (.resolverError, [query])) ∧
       (oracle cached query = .yxdomain →
          get_zone_name oracle cached roc fuel query
            = (.permanentError, [query]))) := by
  intro oracle cached roc fuel query habs
  refine ⟨?_, ?_, ?_, ?_⟩ <;>
    · intro horacle
      unfold get_zone_name
      simp [habs, horacle]

theorem C5_witness :
    www_stanford.is_absolute = true ∧
    get_zone_name (fun _ _ => .nxdomain) true true 5 www_stanford
      = (.permanentError, [www_stanford]) ∧
    get_zone_name (fun _ _ => .noNameservers) true true 5 www_stanford
      = (.resolverError, [www_stanford]) ∧
    get_zone_name (fun _ _ => .lifetimeTimeout) true true 5 www_stanford
      = (.resolverError, [www_stanford]) ∧
    get_zone_name (fun _ _ => .yxdomain) true true 5 www_stanford
      = (.permanentError, [www_stanford]) :=
  ⟨by decide,
   (C5_engine_failure_mapping (fun _ _ => .nxdomain) true true 5 www_stanford
      (by decide)).1 rfl,
   (C5_engine_failure_mapping (fun _ _ => .noNameservers) true true 5
      www_stanford (by decide)).2.1 rfl,
   (C5_engine_failure_mapping (fun _ _ => .lifetimeTimeout) true true 5
      www_stanford (by decide)).2.2.1 rfl,
   (C5_engine_failure_mapping (fun _ _ => .yxdomain) true true 5 www_stanford
      (by decide)).2.2.2 rfl⟩

/-- A record with at least one character-string decodes to exactly one
entry: the whole tuple as `multi` past one string, else its head as
`single`. -/
theorem decode_txt_record_of_ne_nil (r : List Bytes) (h : r ≠ []) :
    decode_txt_record r
      = some (if 1 < r.length then TextEntry.multi r else TextEntry.single r.headI) := by
  cases r with
  | nil => exact absurd rfl h
  | cons e rest =>
    by_cases h1 : 0 < rest.length <;>
      simp [decode_txt_record, h1, List.headI]

/-- Decoding a list of records that all carry at least one string succeeds
record by record, in order. -/
theorem decode_txt_records_of_ne_nil (l : List (List Bytes))
    (h : ∀ r ∈ l, r ≠ []) :
    decode_txt_records l
      = some (l.map fun r =>
          if 1 < r.length then TextEntry.multi r else TextEntry.single r.headI) := by
  induction l with
  | nil => rfl
  | cons r rest ih =>
    have hr := decode_txt_record_of_ne_nil r (h r (by simp))
    have hrest := ih (fun x hx => h x (by simp [hx]))
    simp [decode_txt_records, hr, hrest]

/-- Decoding a list of records one of which carries no string raises the
IndexError. -/
theorem decode_txt_records_of_mem_nil (l : List (List Bytes)) (h : [] ∈ l) :
    decode_txt_records l = none := by
  induction l with
  | nil => simp at h
  | cons r rest ih =>
    rcases List.mem_cons.mp h with h1 | h2
    · simp [decode_txt_records, ← h1, decode_txt_record]
    · cases hdr : decode_txt_record r <;>
        simp [decode_txt_records, hdr, ih h2]

/-- C6: on a redirect-free TXT reply whose records all carry at least one
character-string, `get_txt` decodes each record, in server order, into one
entry: `single` of the string for a one-string record, `multi` of the
tuple, order preserved, for a longer record. -/
theorem C6_txt_decoding :
    ∀ (oracle : Bool → Bool → Name → ResolveOutcome) (query : Name)
      (cached search roc : Bool) (reply : Answer)
      (tuples : List (List Bytes)),
      oracle cached search query = .ok reply →
      redirects_found reply = 0 →
      reply.rrset = some tuples →
      (∀ r ∈ tuples, r ≠ []) →
      get_txt oracle query cached search roc
        = .ok (tuples.map fun r =>
            if 1 < r.length then TextEntry.multi r else TextEntry.single r.headI) := by
  intro oracle query cached search roc reply tuples horacle hred hrrset hne
  have hchk : check_has_cdname reply roc = .ok false := by
    simp [check_has_cdname, hred]
  unfold get_txt
  simp [horacle, hchk, hrrset, decode_txt_records_of_ne_nil tuples hne]

theorem C6_witness :
    redirects_found txt_answer = 0 ∧
    txt_answer.rrset = some [[[97]], [[97], [98], [99]]] ∧
    (∀ r ∈ ([[[97]], [[97], [98], [99]]] : List (List Bytes)), r ≠ []) ∧
    get_txt (fun _ _ _ => .ok txt_answer) stanford_edu true true true
      = .ok [.single [97], .multi [[97], [98], [99]]] := by
  have h1 : redirects_found txt_answer = 0 := by decide
  have h2 : txt_answer.rrset = some [[[97]], [[97], [98], [99]]] := by decide
  have h3 : ∀ r ∈ ([[[97]], [[97], [98], [99]]] : List (List Bytes)), r ≠ [] := by
    decide
  exact ⟨h1, h2, h3,
    C6_txt_decoding (fun _ _ _ => .ok txt_answer) stanford_edu true true true
      txt_answer [[[97]], [[97], [98], [99]]] rfl h1 h2 h3⟩

/-- C7: `get_ip` with `ipv6` true returns every IPv6 address before every
IPv4 address, each family in the server's order: the result is exactly the
engine's AAAA list followed by its A list, produced by the
`HostAnswers.addresses` merge. -/
theorem C7_ip_ordering :
    ∀ (oracle : Bool → Family → Bool → Name → HostOutcome) (query : Name)
      (cached search : Bool) (answers : HostAnswers),
      oracle cached Family.af_unspec search query = .ok answers →
      (get_ip oracle query cached true search
         = .ok (answers.aaaa ++ answers.a) ∧
       (∀ i, i < answers.aaaa.length →
          (answers.aaaa ++ answers.a)[i]? = answers.aaaa[i]?) ∧
       (∀ j, (answers.aaaa ++ answers.a)[answers.aaaa.length + j]?
          = answers.a[j]?)) := by
  intro oracle query cached search answers horacle
  refine ⟨?_, ?_, ?_⟩
  · unfold get_ip
    simp [horacle, HostAnswers.addresses]
  · intro i hi
    simp [List.getElem?_append, hi]
  · intro j
    simp [List.getElem?_append]

theorem C7_witness :
    get_ip (fun _ _ _ _ => .ok host_answers_example) stanford_edu true true
      true = .ok ["::1", "::2", "1.1.1.1"] :=
  (C7_ip_ordering (fun _ _ _ _ => .ok host_answers_example) stanford_edu true
    true host_answers_example rfl).1

/-- C8: `get_txt` and `get_ip` turn NXDOMAIN (and, for `get_ip`, NoAnswer;
for `get_txt`, an answer with no matched rrset) into an empty list, map
NoNameservers and LifetimeTimeout to the retryable `ResolverError`, and map
YXDOMAIN to `ResolverErrorPermanent`. -/
theorem C8_empty_and_failures :
    ∀ (toracle : Bool → Bool → Name → ResolveOutcome)
      (ioracle : Bool → Family → Bool → Name → HostOutcome)
      (query : Name) (cached search roc ipv6 : Bool),
      ((toracle cached search query = .nxdomain →
          get_txt toracle query cached search roc = .ok []) ∧
       (∀ reply, toracle cached search query = .ok reply →
          redirects_found reply = 0 → reply.rrset = none →
          get_txt toracle query cached search roc = .ok []) ∧
       (toracle cached search query = .noNameservers →
          get_txt toracle query cached search roc = .error .retryable) ∧
       (toracle cached search query = .lifetimeTimeout →
          get_txt toracle query cached search roc = .error .retryable) ∧
       (toracle cached search query = .yxdomain →
          get_txt toracle query cached search roc = .error .permanent)) ∧
      ((ioracle cached (if ipv6 = true then Family.af_unspec else Family.af_inet)
          search query = .nxdomain →
          get_ip ioracle query cached ipv6 search = .ok []) ∧
       (ioracle cached (if ipv6 = true then Family.af_unspec else Family.af_inet)
          search query = .noAnswer →
          get_ip ioracle query cached ipv6 search = .ok []) ∧
       (ioracle cached (if ipv6 = true then Family.af_unspec else Family.af_inet)
          search query = .noNameservers →
          get_ip ioracle query cached ipv6 search = .error .retryable) ∧
       (ioracle cached (if ipv6 = true then Family.af_unspec else Family.af_inet)
          search query = .lifetimeTimeout →
          get_ip ioracle query cached ipv6 search = .error .retryable) ∧
       (ioracle cached (if ipv6 = true then Family.af_unspec else Family.af_inet)
          search query = .yxdomain →
          get_ip ioracle query cached ipv6 search = .error .permanent)) := by
  intro toracle ioracle query cached search roc ipv6
  constructor
  · refine ⟨?_, ?_, ?_, ?_, ?_⟩
    · intro h
      unfold get_txt
      simp [h]
    · intro reply horacle hred hrrset
      have hchk : check_has_cdname reply roc = .ok false := by
        simp [check_has_cdname, hred]
      unfold get_txt
      simp [horacle, hchk, hrrset]
    · intro h
      unfold get_txt
      simp [h]
    · intro h
      unfold get_txt
      simp [h]
    · intro h
      unfold get_txt
      simp [h]
  · refine ⟨?_, ?_, ?_, ?_, ?_⟩ <;>
      · intro h
        unfold get_ip
        simp [h]

theorem C8_witness :
    get_txt (fun _ _ _ => .nxdomain) stanford_edu true true true = .ok [] ∧
    get_txt (fun _ _ _ => .ok txt_noanswer) stanford_edu true true true
      = .ok [] ∧
    get_txt (fun _ _ _ => .noNameservers) stanford_edu true true true
      = .error .retryable ∧
    get_txt (fun _ _ _ => .lifetimeTimeout) stanford_edu true true true
      = .error .retryable ∧
    get_txt (fun _ _ _ => .yxdomain) stanford_edu true true true
      = .error .permanent ∧
    get_ip (fun _ _ _ _ => .nxdomain) stanford_edu true true true = .ok [] ∧
    get_ip (fun _ _ _ _ => .noAnswer) stanford_edu true true true = .ok [] ∧
    get_ip (fun _ _ _ _ => .noNameservers) stanford_edu true true true
      = .error .retryable ∧
    get_ip (fun _ _ _ _ => .lifetimeTimeout) stanford_edu true true true
      = .error .retryable ∧
    get_ip (fun _ _ _ _ => .yxdomain) stanford_edu true true true
      = .error .permanent := by
  have hred : redirects_found txt_noanswer = 0 := by decide
  have hrrset : txt_noanswer.rrset = none := by decide
  refine ⟨?_, ?_, ?_, ?_, ?_, ?_, ?_, ?_, ?_, ?_⟩
  · exact (C8_empty_and_failures (fun _ _ _ => .nxdomain)
      (fun _ _ _ _ => .nxdomain) stanford_edu true true true true).1.1 rfl
  · exact (C8_empty_and_failures (fun _ _ _ => .ok txt_noanswer)
      (fun _ _ _ _ => .nxdomain) stanford_edu true true true true).1.2.1
      txt_noanswer rfl hred hrrset
  · exact (C8_empty_and_failures (fun _ _ _ => .noNameservers)
      (fun _ _ _ _ => .nxdomain) stanford_edu true true true true).1.2.2.1 rfl
  · exact (C8_empty_and_failures (fun _ _ _ => .lifetimeTimeout)
      (fun _ _ _ _ => .nxdomain) stanford_edu true true true true).1.2.2.2.1 rfl
  · exact (C8_empty_and_failures (fun _ _ _ => .yxdomain)
      (fun _ _ _ _ => .nxdomain) stanford_edu true true true true).1.2.2.2.2 rfl
  · exact (C8_empty_and_failures (fun _ _ _ => .nxdomain)
      (fun _ _ _ _ => .nxdomain) stanford_edu true true true true).2.1 rfl
  · exact (C8_empty_and_failures (fun _ _ _ => .nxdomain)
      (fun _ _ _ _ => .noAnswer) stanford_edu true true true true).2.2.1 rfl
  · exact (C8_empty_and_failures (fun _ _ _ => .nxdomain)
      (fun _ _ _ _ => .noNameservers) stanford_edu true true true true).2.2.2.1
      rfl
  · exact (C8_empty_and_failures (fun _ _ _ => .nxdomain)
      (fun _ _ _ _ => .lifetimeTimeout) stanford_edu true true true
      true).2.2.2.2.1 rfl
  · exact (C8_empty_and_failures (fun _ _ _ => .nxdomain)
      (fun _ _ _ _ => .yxdomain) stanford_edu true true true true).2.2.2.2.2
      rfl

/-- C9: the constructor configures the cached engine with the 10-unit
timeout and the 300-unit cache-cleaning interval, but its last two
statements target the cached engine again, so the uncached engine keeps its
construction-time configuration unchanged — with the engine default of 5 it
does not share the 10-unit timeout. -/
theorem C9_engine_configuration :
    ∀ d : Resolver,
      (ResolverClient.init d).resolver.lifetime = RESOLVER_TIMEOUT ∧
      (ResolverClient.init d).resolver.cache_cleaning_interval
        = some CACHE_CLEAN_INTERVAL ∧
      (ResolverClient.init d).resolver_nocache = d ∧
      (ResolverClient.init Resolver.engine_default).resolver_nocache.lifetime
        ≠ RESOLVER_TIMEOUT := by
  intro d
  exact ⟨rfl, rfl, rfl, by decide⟩

/-- C10: `get_txt`'s decoding indexes each record's first character-string;
when every record of the reply carries at least one string the call returns
a value, and on a reply containing a record with zero strings it hits the
IndexError branch instead. -/
theorem C10_txt_indexing :
    ∀ (oracle : Bool → Bool → Name → ResolveOutcome) (query : Name)
      (cached search roc : Bool) (reply : Answer)
      (tuples : List (List Bytes)),
      oracle cached search query = .ok reply →
      redirects_found reply = 0 →
      reply.rrset = some tuples →
      (((∀ r ∈ tuples, r ≠ []) →
          ∃ entries, get_txt oracle query cached search roc = .ok entries) ∧
       ([] ∈ tuples →
          get_txt oracle query cached search roc = .error .indexError)) := by
  intro oracle query cached search roc reply tuples horacle hred hrrset
  have hchk : check_has_cdname reply roc = .ok false := by
    simp [check_has_cdname, hred]
  constructor
  · intro hne
    refine ⟨tuples.map fun r =>
      if 1 < r.length then TextEntry.multi r else TextEntry.single r.headI, ?_⟩
    unfold get_txt
    simp [horacle, hchk, hrrset, decode_txt_records_of_ne_nil tuples hne]
  · intro hmem
    unfold get_txt
    simp [horacle, hchk, hrrset, decode_txt_records_of_mem_nil tuples hmem]

theorem C10_witness :
    (∃ entries, get_txt (fun _ _ _ => .ok txt_answer) stanford_edu true true
      true = .ok entries) ∧
    get_txt (fun _ _ _ => .ok txt_empty_record_answer) stanford_edu true true
      true = .error .indexError := by
  have h1 : redirects_found txt_answer = 0 := by decide
  have h2 : txt_answer.rrset = some [[[97]], [[97], [98], [99]]] := by decide
  have h3 : ∀ r ∈ ([[[97]], [[97], [98], [99]]] : List (List Bytes)), r ≠ [] := by
    decide
  have h4 : redirects_found txt_empty_record_answer = 0 := by decide
  have h5 : txt_empty_record_answer.rrset = some [[]] := by decide
  have h6 : [] ∈ ([[]] : List (List Bytes)) := by decide
  exact ⟨(C10_txt_indexing (fun _ _ _ => .ok txt_answer) stanford_edu true
      true true txt_answer [[[97]], [[97], [98], [99]]] rfl h1 h2).1 h3,
    (C10_txt_indexing (fun _ _ _ => .ok txt_empty_record_answer) stanford_edu
      true true true txt_empty_record_answer [[]] rfl h4 h5).2 h6⟩
